import Mathlib

/-
Shallow embedding of the PageSpeed Insights dashboard (src/streamlit_app.py).

Modelling conventions:
* A pandas DataFrame is a Table: a list of column names plus a list of rows.
  Row filters never change the column list, so the two are kept separately.
* A pandas Timestamp is its underlying instant, modelled as an Int of epoch
  seconds; pd.to_datetime(poll_time, unit = s) is the identity on that value
  and pd.to_datetime(date) is midnight of that day, date * 86400.
* A possibly-missing float cell (NaN) is an Option ℚ; pandas Series.mean
  skips missing values and yields NaN on an empty column.
* Python exceptions that the code does not catch (KeyError on a missing
  column, UnboundLocalError on a name never assigned) are modelled with
  Except Crash; streamlit st.stop is a normal early return flagged in the
  output, not a crash.
-/

/-- One record of the pagespeed_results table, after load. The metric
columns (performance, fcp, lcp, cls, ...) are kept as an association list
from column name to possibly-missing numeric value. -/
structure Row where
  url : String
  strategy : String
  poll_time : Int
  metrics : List (String × Option ℚ)
deriving DecidableEq

/-- The derived datetime value (streamlit_app.py line 32):
pd.to_datetime(poll_time, unit = s) maps epoch seconds to the calendar
instant with the same underlying value, so on instants it is the identity. -/
def Row.datetime (r : Row) : Int := r.poll_time

/-- Value of a metric column in a row, as read by url_data[metric]
(lines 51 and 80); a missing value (NaN) is none. The callers only read
metric columns already checked present in the table (line 139). -/
def Row.val (r : Row) (m : String) : Option ℚ :=
  (r.metrics.lookup m).getD none

/-- A loaded DataFrame: its column names and its rows. -/
structure Table where
  cols : List String
  rows : List Row
deriving DecidableEq

/-- Seconds in one day; pd.Timedelta(days=1) on an epoch-seconds scale. -/
def secondsPerDay : Int := 86400

/-- The date filter (streamlit_app.py lines 123-126): when exactly two
dates are selected, start_date is midnight of the first,
end_date is midnight of the second plus one day, and the rows kept are
those with datetime between start_date and end_date —
pandas Series.between, whose default inclusive="both" keeps both
endpoints. With any other number of selected dates the table passes
through unchanged. -/
def dateFilter (selectedDates : List Int) (rows : List Row) : List Row :=
  match selectedDates with
  | [d0, d1] =>
    let startDate := d0 * secondsPerDay
    let endDate := d1 * secondsPerDay + secondsPerDay
    rows.filter (fun r => decide (startDate ≤ r.datetime ∧ r.datetime ≤ endDate))
  | _ => rows

/-- The URL filter (line 136): data[data[url].isin(selected_urls)]. -/
def urlFilter (selectedUrls : List String) (rows : List Row) : List Row :=
  rows.filter (fun r => decide (r.url ∈ selectedUrls))

/-- The strategy filter (line 154): data[data[strategy] == selected_strategy]. -/
def strategyFilter (selectedStrategy : String) (rows : List Row) : List Row :=
  rows.filter (fun r => r.strategy == selectedStrategy)

/-- pandas Series.unique (line 130 and line 151): the distinct values in
first-occurrence order. -/
def uniqueVals : List String → List String
  | [] => []
  | x :: xs => x :: (uniqueVals xs).filter (fun y => y != x)

/-- The metric choice list (line 139): the comprehension
[col for col in [performance, fcp, lcp, cls] if col in data.columns]. -/
def metricPreference : List String := ["performance", "fcp", "lcp", "cls"]

/-- Available metrics offered by the multiselect (line 139). -/
def availableMetrics (cols : List String) : List String :=
  metricPreference.filter (fun c => decide (c ∈ cols))

/-- pandas Series.mean (line 80): the arithmetic mean of the non-missing
values, NaN (none) when every value is missing. -/
def pandasMean (vals : List (Option ℚ)) : Option ℚ :=
  let present := vals.filterMap id
  if present.isEmpty then none else some (present.sum / (present.length : ℚ))

/-- The card label (line 78): f-string truncation of a URL longer than 30
characters, with an ellipsis marker. -/
def truncLabel (url : String) : String :=
  if url.length > 30 then url.take 30 ++ "..." else url

/-- One metric tile of a summary card (lines 81-85): st.metric shows the
mean; a none value is pandas NaN, which the format string {:.1f} renders
as the text nan. -/
structure MetricTile where
  metric : String
  value : Option ℚ
deriving DecidableEq

/-- One summary card (lines 77-85): subheader label plus one tile per
selected metric. -/
structure UrlCard where
  url : String
  label : String
  tiles : List MetricTile
deriving DecidableEq

/-- The function display_url_metrics (lines 66-85): returns early when
either selection is empty; otherwise, for each selected URL in order,
restricts the table to that URL and renders a card only when that
restriction is nonempty. -/
def displayUrlMetrics (data : List Row) (selectedUrls selectedMetrics : List String) :
    List UrlCard :=
  if selectedUrls.isEmpty || selectedMetrics.isEmpty then []
  else
    selectedUrls.filterMap (fun url =>
      let urlData := data.filter (fun r => r.url == url)
      if urlData.isEmpty then none
      else some
        { url := url
          label := truncLabel url
          tiles := selectedMetrics.map (fun m =>
            { metric := m, value := pandasMean (urlData.map (fun r => r.val m)) }) })

/-- An uncaught Python exception in the render cycle. -/
inductive Crash where
  | unboundLocal (name : String)
  | keyError (key : String)
deriving DecidableEq

/-- One rendered line chart (lines 44-64): one series of
(datetime, value) points per selected metric. -/
structure Chart where
  url : String
  strategy : String
  series : List (String × List (Int × Option ℚ))
deriving DecidableEq

/-- The function plot_url_metrics (lines 41-64): draws nothing when the
URL has no rows or no metric is selected; otherwise it reads
url_data[datetime] (line 50), a KeyError when the table has no datetime
column. The metric columns it reads were already checked present. -/
def plotUrlMetrics (cols : List String) (urlData : List Row) (url strategy : String)
    (selectedMetrics : List String) : Except Crash (Option Chart) :=
  if !urlData.isEmpty && !selectedMetrics.isEmpty then
    if "datetime" ∈ cols then
      .ok (some
        { url := url
          strategy := strategy
          series := selectedMetrics.map (fun m =>
            (m, urlData.map (fun r => (r.datetime, r.val m)))) })
    else .error (.keyError "datetime")
  else .ok none

/-- The per-URL chart loop (lines 162-166): for each selected URL in
order, restrict to its rows; when nonempty, take the strategy of the
first row (or the empty string without a strategy column) and plot.
The first uncaught exception aborts the cycle. -/
def renderCharts (cols : List String) (data : List Row) (selectedMetrics : List String) :
    List String → Except Crash (List Chart)
  | [] => .ok []
  | url :: rest =>
    let urlData := data.filter (fun r => r.url == url)
    if urlData.isEmpty then renderCharts cols data selectedMetrics rest
    else
      let strategy := if "strategy" ∈ cols then (urlData.head?.map Row.strategy).getD "" else ""
      match plotUrlMetrics cols urlData url strategy selectedMetrics with
      | .error e => .error e
      | .ok none => renderCharts cols data selectedMetrics rest
      | .ok (some c) => (renderCharts cols data selectedMetrics rest).map (fun cs => c :: cs)

/-- The guard at line 161: the chart loop only runs when both selections
are nonempty. -/
def renderTrends (cols : List String) (data : List Row)
    (selectedUrls selectedMetrics : List String) : Except Crash (List Chart) :=
  if !selectedUrls.isEmpty && !selectedMetrics.isEmpty then
    renderCharts cols data selectedMetrics selectedUrls
  else .ok []

/-- Insertion of a row into a list already in descending datetime order. -/
def insertDesc (r : Row) : List Row → List Row
  | [] => [r]
  | x :: xs => if x.datetime ≤ r.datetime then r :: x :: xs else x :: insertDesc r xs

/-- The raw-data table (line 170): data.sort_values(datetime,
ascending=False), sorting the rows by datetime descending (pandas does
not promise a tie order with its default quicksort, so any sort by the
datetime key is a faithful model). -/
def sortDatetimeDesc (rows : List Row) : List Row :=
  rows.foldr insertDesc []

/-- The user-side widget state of one render cycle: the date-range picker
value, the URL multiselect value, the metric multiselect value and the
strategy radio value. -/
structure Inputs where
  selectedDates : List Int
  selectedUrls : List String
  selectedMetrics : List String
  selectedStrategy : String
deriving DecidableEq

/-- Everything one render cycle shows: whether it ended early at st.stop
(line 106), the summary cards, the charts and the raw-data rows. -/
structure Output where
  stopped : Bool
  cards : List UrlCard
  charts : List Chart
  rawRows : List Row
deriving DecidableEq

/-- The body of main after load_data (streamlit_app.py lines 104-170).
An empty table stops at line 106. The date block (lines 112-126), the
URL block (lines 129-136) and the strategy block (lines 148-154) each
run only when their column exists. selected_urls is a local name bound
only inside the URL block, so reading it at line 157 without a url
column is an UnboundLocalError. Each multiselect returns a subset of its
offered options, modelled by filtering the requested selection to the
options. Line 170 sorts by the datetime column, a KeyError when that
column is absent. -/
def renderMain (t : Table) (inp : Inputs) : Except Crash Output :=
  if t.rows.isEmpty then
    .ok { stopped := true, cards := [], charts := [], rawRows := [] }
  else
    let data1 := if "datetime" ∈ t.cols then dateFilter inp.selectedDates t.rows else t.rows
    let selUrls? : Option (List String) :=
      if "url" ∈ t.cols then
        some (inp.selectedUrls.filter (fun u => decide (u ∈ uniqueVals (data1.map Row.url))))
      else none
    let data2 := match selUrls? with
      | some sel => urlFilter sel data1
      | none => data1
    let selMetrics := inp.selectedMetrics.filter (fun m => decide (m ∈ availableMetrics t.cols))
    let data3 := if "strategy" ∈ t.cols then strategyFilter inp.selectedStrategy data2 else data2
    match selUrls? with
    | none => .error (.unboundLocal "selected_urls")
    | some sel =>
      let cards := displayUrlMetrics data3 sel selMetrics
      match renderTrends t.cols data3 sel selMetrics with
      | .error e => .error e
      | .ok charts =>
        if "datetime" ∈ t.cols then
          .ok { stopped := false, cards := cards, charts := charts,
                rawRows := sortDatetimeDesc data3 }
        else .error (.keyError "datetime")

/-- The observable outcome of load_data (lines 23-39): the table it
returns, the errors it reported via st.error, and whether the finally
block released the connection. -/
structure LoadOutcome where
  table : Table
  errorsReported : List String
  connectionClosed : Bool
deriving DecidableEq

/-- The datetime derivation inside load_data (lines 30-32): when a
poll_time column exists, a datetime column is added; every Row already
carries the derived value through Row.datetime. -/
def deriveDatetime (t : Table) : Table :=
  if "poll_time" ∈ t.cols then { cols := t.cols ++ ["datetime"], rows := t.rows } else t

/-- The function load_data (lines 23-39), given the outcome of
pd.read_sql on the open connection: on success the table with its
derived datetime column is returned; on any exception the handler at
lines 35-37 reports the error and returns pd.DataFrame(); the finally
block at lines 38-39 closes the connection on both paths. -/
def load_data (readResult : Except String Table) : LoadOutcome :=
  match readResult with
  | .ok d =>
    { table := deriveDatetime d, errorsReported := [], connectionClosed := true }
  | .error e =>
    { table := { cols := [], rows := [] }
      errorsReported := ["Data loading error: " ++ e]
      connectionClosed := true }

/-! Helper lemmas shared by several claims. -/

/-- Membership in pandas unique is membership in the original column. -/
theorem mem_uniqueVals (y : String) (xs : List String) : y ∈ uniqueVals xs ↔ y ∈ xs := by
  induction xs with
  | nil => simp [uniqueVals]
  | cons x xs ih =>
    simp only [uniqueVals, List.mem_cons, List.mem_filter, ih, bne_iff_ne, ne_eq,
      decide_eq_true_eq]
    tauto

/-- The date filter commutes with any row filter, in both of its branches. -/
theorem dateFilter_filter_comm (dates : List Int) (p : Row → Bool) (rows : List Row) :
    dateFilter dates (rows.filter p) = (dateFilter dates rows).filter p := by
  unfold dateFilter
  split
  · exact List.filter_comm _ p rows
  · rfl

/-- The date filter commutes with the URL filter. -/
theorem dateFilter_urlFilter_comm (dates : List Int) (sel : List String) (rows : List Row) :
    dateFilter dates (urlFilter sel rows) = urlFilter sel (dateFilter dates rows) :=
  dateFilter_filter_comm dates _ rows

/-- The date filter commutes with the strategy filter. -/
theorem dateFilter_strategyFilter_comm (dates : List Int) (s : String) (rows : List Row) :
    dateFilter dates (strategyFilter s rows) = strategyFilter s (dateFilter dates rows) :=
  dateFilter_filter_comm dates _ rows

/-- The URL filter commutes with the strategy filter. -/
theorem urlFilter_strategyFilter_comm (sel : List String) (s : String) (rows : List Row) :
    urlFilter sel (strategyFilter s rows) = strategyFilter s (urlFilter sel rows) :=
  List.filter_comm _ _ rows

/-- pandas mean over a mapped metric column, written through the list of
rows whose value is present. -/
theorem pandasMean_eq_mean_of_present (rows : List Row) (m : String) :
    pandasMean (rows.map (fun r => r.val m)) =
      if rows.filterMap (fun r => r.val m) = [] then none
      else some ((rows.filterMap (fun r => r.val m)).sum /
        ((rows.filterMap (fun r => r.val m)).length : ℚ)) := by
  unfold pandasMean
  rw [List.filterMap_map]
  simp [List.isEmpty_iff, Function.comp_def]

/-! Concrete sample data used by witnesses and counterexamples. -/

/-- A sample measurement row. -/
def rowA : Row :=
  { url := "https://a.test", strategy := "mobile", poll_time := 100
    metrics := [("performance", some 80)] }

/-- A row timestamped exactly at midnight of epoch day 1, i.e. at
00:00:00 of the day after epoch day 0. -/
def rowNextMidnight : Row :=
  { url := "https://a.test", strategy := "mobile", poll_time := 86400
    metrics := [] }

/-! Claim theorems. -/

/-- C3: for every table, the URL filter with an empty selected-URL set
yields an empty table, and the URL filter with the full set of URLs
present in the table (pandas unique over the url column, as offered by
the multiselect) yields the table unchanged. -/
theorem urlFilter_empty_and_full (rows : List Row) :
    urlFilter [] rows = [] ∧
    urlFilter (uniqueVals (rows.map Row.url)) rows = rows := by
  constructor
  · simp [urlFilter]
  · apply List.filter_eq_self.mpr
    intro r hr
    simp only [decide_eq_true_eq, mem_uniqueVals]
    exact List.mem_map_of_mem Row.url hr

/-- C6: for every table and every fixed set of criteria, the date filter,
the URL filter and the strategy filter commute: all six application
orders produce the same table. -/
theorem filters_commute (dates : List Int) (sel : List String) (s : String)
    (rows : List Row) :
    dateFilter dates (urlFilter sel (strategyFilter s rows)) =
      dateFilter dates (strategyFilter s (urlFilter sel rows)) ∧
    dateFilter dates (urlFilter sel (strategyFilter s rows)) =
      urlFilter sel (dateFilter dates (strategyFilter s rows)) ∧
    dateFilter dates (urlFilter sel (strategyFilter s rows)) =
      urlFilter sel (strategyFilter s (dateFilter dates rows)) ∧
    dateFilter dates (urlFilter sel (strategyFilter s rows)) =
      strategyFilter s (dateFilter dates (urlFilter sel rows)) ∧
    dateFilter dates (urlFilter sel (strategyFilter s rows)) =
      strategyFilter s (urlFilter sel (dateFilter dates rows)) := by
  refine ⟨?_, ?_, ?_, ?_, ?_⟩
  · rw [urlFilter_strategyFilter_comm]
  · rw [dateFilter_urlFilter_comm]
  · rw [dateFilter_urlFilter_comm, dateFilter_strategyFilter_comm]
  · rw [urlFilter_strategyFilter_comm, dateFilter_strategyFilter_comm]
  · rw [urlFilter_strategyFilter_comm, dateFilter_strategyFilter_comm,
      dateFilter_urlFilter_comm]

/-- C7: for every execution of load_data in which the read query fails,
an empty table is returned and the error is reported instead of raised,
and the connection is released on the failure path as well as on the
success path. -/
theorem load_data_failure_empty_and_released (e : String) (t : Table) :
    (load_data (.error e)).table.rows = [] ∧
    (load_data (.error e)).table.cols = [] ∧
    (load_data (.error e)).errorsReported ≠ [] ∧
    (load_data (.error e)).connectionClosed = true ∧
    (load_data (.ok t)).connectionClosed = true := by
  refine ⟨rfl, rfl, ?_, rfl, rfl⟩
  simp [load_data]

/-- C8: for every loaded table, the offered metric list is exactly the
fixed preferred list [performance, fcp, lcp, cls] intersected with the
columns present, in that fixed order (it is a sublist of the preferred
list): unrecognized columns never appear and missing expected columns
are omitted. -/
theorem availableMetrics_intersection (cols : List String) :
    (∀ m, m ∈ availableMetrics cols ↔ m ∈ metricPreference ∧ m ∈ cols) ∧
    List.Sublist (availableMetrics cols) metricPreference := by
  constructor
  · intro m
    simp [availableMetrics]
  · exact List.filter_sublist metricPreference

/-- C9: for every table, when fewer than two dates are selected the date
filter passes the table through unchanged. -/
theorem dateFilter_noop_short_selection (dates : List Int) (rows : List Row)
    (h : dates.length < 2) :
    dateFilter dates rows = rows := by
  rcases dates with _ | ⟨d0, _ | ⟨d1, rest⟩⟩
  · rfl
  · rfl
  · simp only [List.length_cons] at h
    omega

/-- Witness for C9 at a concrete input: an empty date selection leaves a
one-row table unchanged. -/
theorem dateFilter_noop_short_selection_witness :
    ([] : List Int).length < 2 ∧ dateFilter [] [rowA] = [rowA] :=
  ⟨by decide, dateFilter_noop_short_selection [] [rowA] (by decide)⟩

/-- C1 counterexample: with start and end both epoch day 0, a row
timestamped exactly at 00:00:00 of the day after the end date is kept by
the date filter, although it does not lie in the half-open interval
[start, end + 1 day) that the claim states. -/
theorem dateFilter_next_midnight_kept :
    rowNextMidnight ∈ dateFilter [0, 0] [rowNextMidnight] ∧
    ¬ rowNextMidnight.datetime < (0 + 1) * secondsPerDay := by decide

/-- C1 amended: for every loaded table and every selected date pair
(start, end), the date filter keeps exactly the rows whose datetime lies
in the closed interval [start, end + 1 day]: both bounds inclusive, so a
row at 23:59:59 of the end date is kept and a row at exactly 00:00:00 of
the following day is kept as well, while rows strictly after that
instant (or strictly before midnight of the start date) are excluded. -/
theorem dateFilter_closed_interval (rows : List Row) (d0 d1 : Int) (r : Row) :
    r ∈ dateFilter [d0, d1] rows ↔
      r ∈ rows ∧ d0 * secondsPerDay ≤ r.datetime ∧
        r.datetime ≤ d1 * secondsPerDay + secondsPerDay := by
  simp [dateFilter, List.mem_filter, and_assoc]

/-- A one-row table whose pagespeed_results has no poll_time column, so
the loaded table has no datetime column either. -/
def tableNoDatetime : Table :=
  { cols := ["url", "strategy", "performance"]
    rows := [{ url := "https://a.test", strategy := "mobile", poll_time := 0
               metrics := [("performance", some 80)] }] }

/-- A one-row table whose pagespeed_results has no url column. -/
def tableNoUrl : Table :=
  { cols := ["strategy", "poll_time", "datetime"]
    rows := [{ url := "", strategy := "mobile", poll_time := 0, metrics := [] }] }

/-- Widget state selecting one URL, one metric and the mobile strategy. -/
def inputsSelectingA : Inputs :=
  { selectedDates := [], selectedUrls := ["https://a.test"]
    selectedMetrics := ["performance"], selectedStrategy := "mobile" }

/-- Widget state with an empty URL selection. -/
def inputsSelectingNone : Inputs :=
  { selectedDates := [], selectedUrls := []
    selectedMetrics := ["performance"], selectedStrategy := "mobile" }

/-- C2: the render cycle does crash on a missing expected column, instead
of skipping the dependent features. With no datetime column the chart
loop raises KeyError at url_data[datetime] (line 50) as soon as a
selected URL has rows, and even with no chart drawn the raw-data table
raises KeyError at data.sort_values(datetime) (line 170); with no url
column the call display_url_metrics(data, selected_urls) (line 157)
raises UnboundLocalError because selected_urls is only assigned inside
the skipped URL block. Only the strategy filter part of the claim holds. -/
theorem renderMain_missing_column_crashes :
    renderMain tableNoDatetime inputsSelectingA = .error (.keyError "datetime") ∧
    renderMain tableNoDatetime inputsSelectingNone = .error (.keyError "datetime") ∧
    renderMain tableNoUrl inputsSelectingA = .error (.unboundLocal "selected_urls") := by
  refine ⟨?_, ?_, ?_⟩ <;> rfl

/-- The summary card rendered for a selected URL with at least one row. -/
theorem displayUrlMetrics_card (data : List Row) (selU selM : List String) (v : String)
    (hv : v ∈ selU) (hm : selM ≠ [])
    (hne : data.filter (fun r => r.url == v) ≠ []) :
    ({ url := v, label := truncLabel v
       tiles := selM.map (fun m =>
         { metric := m
           value := pandasMean ((data.filter (fun r => r.url == v)).map
             (fun r => r.val m)) }) } : UrlCard) ∈ displayUrlMetrics data selU selM := by
  have hU : selU.isEmpty = false := by
    simp only [List.isEmpty_eq_false]
    exact List.ne_nil_of_mem hv
  have hM : selM.isEmpty = false := by simp only [List.isEmpty_eq_false]; exact hm
  have hD : (data.filter (fun r => r.url == v)).isEmpty = false := by
    simp only [List.isEmpty_eq_false]; exact hne
  simp only [displayUrlMetrics, hU, hM, Bool.or_self, if_false]
  apply List.mem_filterMap.mpr
  refine ⟨v, hv, ?_⟩
  simp [hD]

/-- Any rendered summary card belongs to a selected URL with at least one
row in the filtered table. -/
theorem displayUrlMetrics_mem (data : List Row) (selU selM : List String) (c : UrlCard)
    (hc : c ∈ displayUrlMetrics data selU selM) :
    c.url ∈ selU ∧ data.filter (fun r => r.url == c.url) ≠ [] := by
  unfold displayUrlMetrics at hc
  by_cases h : (selU.isEmpty || selM.isEmpty) = true
  · rw [if_pos h] at hc
    cases hc
  · rw [if_neg h] at hc
    obtain ⟨v, hv, hfv⟩ := List.mem_filterMap.mp hc
    dsimp only at hfv
    split at hfv
    · cases hfv
    · rename_i hD
      cases hfv
      refine ⟨hv, ?_⟩
      simpa [List.isEmpty_iff] using hD

/-- C4: for every URL and every selected metric, the tile displayed on
that URL's summary card shows the arithmetic mean over exactly the rows
of that URL in the filtered table whose value for that metric is
present; rows with a missing value are excluded from that mean. -/
theorem displayed_mean_skips_missing (data : List Row) (selU selM : List String)
    (u m : String) (hu : u ∈ selU) (hm : m ∈ selM)
    (hne : data.filter (fun r => r.url == u) ≠ []) :
    ∃ c ∈ displayUrlMetrics data selU selM, c.url = u ∧
      ({ metric := m
         value :=
           if (data.filter (fun r => r.url == u)).filterMap (fun r => r.val m) = []
           then none
           else some
             (((data.filter (fun r => r.url == u)).filterMap (fun r => r.val m)).sum /
              (((data.filter (fun r => r.url == u)).filterMap (fun r => r.val m)).length :
                ℚ)) } : MetricTile) ∈ c.tiles := by
  refine ⟨_, displayUrlMetrics_card data selU selM u hu (List.ne_nil_of_mem hm) hne,
    rfl, ?_⟩
  rw [← pandasMean_eq_mean_of_present]
  exact List.mem_map_of_mem _ hm

/-- Three rows of one URL whose performance values are 10, missing, 20. -/
def dataMeanExample : List Row :=
  [{ url := "https://a.test", strategy := "mobile", poll_time := 100
     metrics := [("performance", some 10)] },
   { url := "https://a.test", strategy := "mobile", poll_time := 200
     metrics := [("performance", none)] },
   { url := "https://a.test", strategy := "mobile", poll_time := 300
     metrics := [("performance", some 20)] }]

/-- Witness for C4 at a concrete input: performance values 10, missing,
20 give mean 15, not 10. -/
theorem displayed_mean_skips_missing_witness :
    ("https://a.test" ∈ ["https://a.test"] ∧ "performance" ∈ ["performance"] ∧
      dataMeanExample.filter (fun r => r.url == "https://a.test") ≠ []) ∧
    pandasMean ((dataMeanExample.filter (fun r => r.url == "https://a.test")).map
      (fun r => r.val "performance")) = some 15 ∧
    ∃ c ∈ displayUrlMetrics dataMeanExample ["https://a.test"] ["performance"],
      c.url = "https://a.test" ∧
      ({ metric := "performance"
         value :=
           if (dataMeanExample.filter (fun r => r.url == "https://a.test")).filterMap
                (fun r => r.val "performance") = []
           then none
           else some
             (((dataMeanExample.filter (fun r => r.url == "https://a.test")).filterMap
                 (fun r => r.val "performance")).sum /
              (((dataMeanExample.filter (fun r => r.url == "https://a.test")).filterMap
                  (fun r => r.val "performance")).length : ℚ)) } : MetricTile) ∈ c.tiles :=
  ⟨⟨by decide, by decide, by decide⟩,
    by simp [dataMeanExample, pandasMean, Row.val]; norm_num,
    displayed_mean_skips_missing dataMeanExample ["https://a.test"] ["performance"]
      "https://a.test" "performance" (by decide) (by decide) (by decide)⟩

/-- C10: for every selected URL that has at least one row in the filtered
table but whose values for some selected metric are all missing, the
summary card for that URL is still rendered (with its truncated label)
and its tile for that metric carries the mean of an empty set, pandas
NaN, which st.metric formats as text, rather than the tile or card being
skipped. -/
theorem all_missing_metric_tile_nan (data : List Row) (selU selM : List String)
    (u m : String) (hu : u ∈ selU) (hm : m ∈ selM)
    (hne : data.filter (fun r => r.url == u) ≠ [])
    (hall : ∀ r ∈ data.filter (fun r => r.url == u), r.val m = none) :
    ∃ c ∈ displayUrlMetrics data selU selM, c.url = u ∧ c.label = truncLabel u ∧
      ({ metric := m, value := none } : MetricTile) ∈ c.tiles := by
  refine ⟨_, displayUrlMetrics_card data selU selM u hu (List.ne_nil_of_mem hm) hne,
    rfl, rfl, ?_⟩
  have hmean : pandasMean ((data.filter (fun r => r.url == u)).map (fun r => r.val m)) =
      none := by
    rw [pandasMean_eq_mean_of_present, if_pos]
    exact List.filterMap_eq_nil_iff.mpr hall
  dsimp only
  apply List.mem_map.mpr
  refine ⟨m, hm, ?_⟩
  dsimp only
  rw [hmean]

/-- One row of one URL whose performance value is missing. -/
def dataAllMissing : List Row :=
  [{ url := "https://a.test", strategy := "mobile", poll_time := 100
     metrics := [("performance", none)] }]

/-- Witness for C10 at a concrete input: a URL with one row whose only
performance value is missing still gets its card, with a NaN tile. -/
theorem all_missing_metric_tile_nan_witness :
    ("https://a.test" ∈ ["https://a.test"] ∧ "performance" ∈ ["performance"] ∧
      dataAllMissing.filter (fun r => r.url == "https://a.test") ≠ [] ∧
      ∀ r ∈ dataAllMissing.filter (fun r => r.url == "https://a.test"),
        r.val "performance" = none) ∧
    ∃ c ∈ displayUrlMetrics dataAllMissing ["https://a.test"] ["performance"],
      c.url = "https://a.test" ∧ c.label = truncLabel "https://a.test" ∧
      ({ metric := "performance", value := none } : MetricTile) ∈ c.tiles :=
  ⟨⟨by decide, by decide, by decide, by decide⟩,
    all_missing_metric_tile_nan dataAllMissing ["https://a.test"] ["performance"]
      "https://a.test" "performance" (by decide) (by decide) (by decide) (by decide)⟩

/-- With a datetime column present the chart loop never raises: it
returns a list of charts in which every chart belongs to a selected URL
having rows, and every selected URL having rows gets a chart whenever a
metric is selected. -/
theorem renderCharts_ok (cols : List String) (data : List Row) (selM : List String)
    (hdt : "datetime" ∈ cols) (urls : List String) :
    ∃ cs, renderCharts cols data selM urls = .ok cs ∧
      (∀ ch ∈ cs, ch.url ∈ urls ∧ data.filter (fun r => r.url == ch.url) ≠ []) ∧
      (∀ v ∈ urls, selM ≠ [] → data.filter (fun r => r.url == v) ≠ [] →
        ∃ ch ∈ cs, ch.url = v) := by
  induction urls with
  | nil => exact ⟨[], rfl, by simp, by simp⟩
  | cons u rest ih =>
    obtain ⟨cs, hcs, hmem, hall⟩ := ih
    by_cases hD : (data.filter (fun r => r.url == u)).isEmpty
    · refine ⟨cs, ?_, ?_, ?_⟩
      · simp only [renderCharts, hD, if_true]
        exact hcs
      · intro ch hch
        exact ⟨List.mem_cons_of_mem _ (hmem ch hch).1, (hmem ch hch).2⟩
      · intro v hv hm hne
        rcases List.mem_cons.mp hv with rfl | hv2
        · exact absurd (List.isEmpty_iff.mp hD) hne
        · exact hall v hv2 hm hne
    · have hD' : (data.filter (fun r => r.url == u)).isEmpty = false := by
        simpa using hD
      by_cases hM : selM.isEmpty
      · have hMnil : selM = [] := List.isEmpty_iff.mp hM
        refine ⟨cs, ?_, ?_, ?_⟩
        · simp only [renderCharts, plotUrlMetrics, hD', hM]
          simpa using hcs
        · intro ch hch
          exact ⟨List.mem_cons_of_mem _ (hmem ch hch).1, (hmem ch hch).2⟩
        · intro v hv hm hne
          exact absurd hMnil hm
      · have hM' : selM.isEmpty = false := by simpa using hM
        refine ⟨{ url := u
                  strategy := if "strategy" ∈ cols then
                    (((data.filter (fun r => r.url == u)).head?).map Row.strategy).getD ""
                    else ""
                  series := selM.map (fun m =>
                    (m, (data.filter (fun r => r.url == u)).map
                      (fun r => (r.datetime, r.val m)))) } :: cs, ?_, ?_, ?_⟩
        · simp only [renderCharts, plotUrlMetrics, hD', hM', hdt]
          simp [hcs, Except.map]
        · intro ch hch
          rcases List.mem_cons.mp hch with rfl | hch2
          · exact ⟨List.mem_cons_self u rest, List.isEmpty_eq_false.mp hD'⟩
          · exact ⟨List.mem_cons_of_mem _ (hmem ch hch2).1, (hmem ch hch2).2⟩
        · intro v hv hm hne
          rcases List.mem_cons.mp hv with rfl | hv2
          · exact ⟨_, List.mem_cons_self _ cs, rfl⟩
          · obtain ⟨ch, hch, hchv⟩ := hall v hv2 hm hne
            exact ⟨ch, List.mem_cons_of_mem _ hch, hchv⟩

/-- C5: for every selected URL with zero matching rows in the filtered
table, no summary card and no chart is produced for that URL and nothing
raises (given the datetime column the chart loop reads), while every
other selected URL that does have rows still gets its card and its chart
whenever a metric is selected. -/
theorem zero_row_url_skipped (cols : List String) (data : List Row)
    (selU selM : List String) (u : String)
    (hdt : "datetime" ∈ cols) (hu : u ∈ selU)
    (hempty : data.filter (fun r => r.url == u) = []) :
    (∀ c ∈ displayUrlMetrics data selU selM, c.url ≠ u) ∧
    ∃ cs, renderTrends cols data selU selM = .ok cs ∧
      (∀ ch ∈ cs, ch.url ≠ u) ∧
      (∀ v ∈ selU, selM ≠ [] → data.filter (fun r => r.url == v) ≠ [] →
        (∃ c ∈ displayUrlMetrics data selU selM, c.url = v) ∧
        ∃ ch ∈ cs, ch.url = v) := by
  constructor
  · intro c hc hcu
    have hne := (displayUrlMetrics_mem data selU selM c hc).2
    rw [hcu] at hne
    exact hne hempty
  · unfold renderTrends
    by_cases hM : selM.isEmpty
    · have hMnil : selM = [] := List.isEmpty_iff.mp hM
      refine ⟨[], by simp [hM], by simp, ?_⟩
      intro v hv hm
      exact absurd hMnil hm
    · have hM' : selM.isEmpty = false := by simpa using hM
      have hU' : selU.isEmpty = false := by
        simp only [List.isEmpty_eq_false]
        exact List.ne_nil_of_mem hu
      obtain ⟨cs, hcs, hmem, hall⟩ := renderCharts_ok cols data selM hdt selU
      refine ⟨cs, ?_, ?_, ?_⟩
      · simp only [hU', hM', Bool.not_false, Bool.and_self, if_true]
        exact hcs
      · intro ch hch hchu
        have hne := (hmem ch hch).2
        rw [hchu] at hne
        exact hne hempty
      · intro v hv hm hne
        exact ⟨⟨_, displayUrlMetrics_card data selU selM v hv hm hne, rfl⟩,
          hall v hv hm hne⟩

/-- The full column list of a well-formed loaded table. -/
def colsFull : List String := ["url", "strategy", "poll_time", "performance", "datetime"]

/-- Witness for C5 at a concrete input: with one row for one URL, a
second selected URL with zero rows gets no card and no chart and causes
no crash, while the URL with rows still gets both. -/
theorem zero_row_url_skipped_witness :
    ("datetime" ∈ colsFull ∧ "https://b.test" ∈ ["https://b.test", "https://a.test"] ∧
      dataAllMissing.filter (fun r => r.url == "https://b.test") = []) ∧
    ((∀ c ∈ displayUrlMetrics dataAllMissing ["https://b.test", "https://a.test"]
        ["performance"], c.url ≠ "https://b.test") ∧
     ∃ cs, renderTrends colsFull dataAllMissing ["https://b.test", "https://a.test"]
        ["performance"] = .ok cs ∧
       (∀ ch ∈ cs, ch.url ≠ "https://b.test") ∧
       (∀ v ∈ ["https://b.test", "https://a.test"], ["performance"] ≠ ([] : List String) →
         dataAllMissing.filter (fun r => r.url == v) ≠ [] →
         (∃ c ∈ displayUrlMetrics dataAllMissing ["https://b.test", "https://a.test"]
            ["performance"], c.url = v) ∧
         ∃ ch ∈ cs, ch.url = v)) :=
  ⟨⟨by decide, by decide, by decide⟩,
    zero_row_url_skipped colsFull dataAllMissing ["https://b.test", "https://a.test"]
      ["performance"] "https://b.test" (by decide) (by decide) (by decide)⟩
